import Mathlib

/-!
Shallow embedding of the Windows backend of the robius-authentication
crate (`src/sys/windows.rs`): the policy builder, the availability probe,
the blocking and suspending authentication dispatchers, and the result
normalizer, together with theorems checking the specification's claims.
-/

set_option linter.unusedVariables false

namespace RobiusAuth

/-- Modelled from the spec: `BiometricStrength` is declared in the crate
root (`src/lib.rs`), which is not under `src/`; the spec describes it as
an enumerated minimum acceptable biometric assurance level with
weak/strong tiers.  The Windows backend only ever tests whether an
`Option BiometricStrength` is `none`. -/
inductive BiometricStrength
  | weak
  | strong
deriving DecidableEq, Repr

/-- Modelled from the spec: the portable `Error` enum is declared in the
crate root (`src/lib.rs`), which is not under `src/`; the spec lists the
closed set of kinds: Unavailable, Busy, Exhausted, UserCanceled,
Unknown. -/
inductive Error
  | Unavailable
  | Busy
  | Exhausted
  | UserCanceled
  | Unknown
deriving DecidableEq, Repr

/-- Modelled from the spec: the text layer is an excluded collaborator;
`WindowsText` carries a human-readable description string, which is all
`src/sys/windows.rs` reads from it (`text.description`). -/
structure WindowsText where
  description : String
deriving DecidableEq, Repr

/-- Modelled from the spec: the portable prompt `Text` container; the
Windows backend only reads its `windows` field (`message.windows`). -/
structure Text where
  windows : WindowsText
deriving DecidableEq, Repr

/-- The Windows platform outcome code of a user-consent verification
request (`UserConsentVerificationResult` of the external `windows`
crate): a transparent wrapper over a machine integer, with named
constants; any integer value can arrive from the OS. -/
structure UserConsentVerificationResult where
  code : Int
deriving DecidableEq, Repr

namespace UserConsentVerificationResult

def Verified : UserConsentVerificationResult := ⟨0⟩

def DeviceNotPresent : UserConsentVerificationResult := ⟨1⟩

def NotConfiguredForUser : UserConsentVerificationResult := ⟨2⟩

def DisabledByPolicy : UserConsentVerificationResult := ⟨3⟩

def DeviceBusy : UserConsentVerificationResult := ⟨4⟩

def RetriesExhausted : UserConsentVerificationResult := ⟨5⟩

def Canceled : UserConsentVerificationResult := ⟨6⟩

end UserConsentVerificationResult

/-- The Windows platform availability code
(`UserConsentVerifierAvailability` of the external `windows` crate): a
transparent wrapper over a machine integer. -/
structure UserConsentVerifierAvailability where
  code : Int
deriving DecidableEq, Repr

namespace UserConsentVerifierAvailability

def Available : UserConsentVerifierAvailability := ⟨0⟩

def DeviceNotPresent : UserConsentVerifierAvailability := ⟨1⟩

def NotConfiguredForCurrentUser : UserConsentVerifierAvailability := ⟨2⟩

def DisabledByPolicy : UserConsentVerifierAvailability := ⟨3⟩

def DeviceBusy : UserConsentVerifierAvailability := ⟨4⟩

end UserConsentVerifierAvailability

/-- A raw platform transport error (`windows::core::Error` of the
external `windows` crate), carrying an HRESULT code. -/
structure WindowsCoreError where
  code : Int
deriving DecidableEq, Repr

instance {ε α : Type} [DecidableEq ε] [DecidableEq α] : DecidableEq (Except ε α) :=
  fun a b =>
    match a, b with
    | .ok x, .ok y =>
      if h : x = y then .isTrue (congrArg Except.ok h)
      else .isFalse (fun hh => h (Except.ok.inj hh))
    | .error x, .error y =>
      if h : x = y then .isTrue (congrArg Except.error h)
      else .isFalse (fun hh => h (Except.error.inj hh))
    | .ok _, .error _ => .isFalse (fun hh => Except.noConfusion hh)
    | .error _, .ok _ => .isFalse (fun hh => Except.noConfusion hh)

/-- `impl From<windows::core::Error> for Error` (`src/sys/windows.rs`
lines 163-171): every raw platform transport error is converted to
`Error::Unknown`, with no further classification. -/
def Error.fromWindowsError (_ : WindowsCoreError) : Error :=
  Error.Unknown

/-- `fn convert` (`src/sys/windows.rs` lines 150-161): the result
normalizer, mapping a platform outcome code to the portable result.  The
Rust `match` compares the wrapped code against the named constants in
order, with a catch-all `_` arm. -/
def convert (result : UserConsentVerificationResult) : Except Error Unit :=
  if result = UserConsentVerificationResult.Verified then Except.ok ()
  else if result = UserConsentVerificationResult.DeviceNotPresent then Except.error Error.Unavailable
  else if result = UserConsentVerificationResult.NotConfiguredForUser then Except.error Error.Unavailable
  else if result = UserConsentVerificationResult.DisabledByPolicy then Except.error Error.Unavailable
  else if result = UserConsentVerificationResult.DeviceBusy then Except.error Error.Busy
  else if result = UserConsentVerificationResult.RetriesExhausted then Except.error Error.Exhausted
  else if result = UserConsentVerificationResult.Canceled then Except.error Error.UserCanceled
  else Except.error Error.Unknown

/-- `struct Policy` (`src/sys/windows.rs` lines 53-54): a fieldless
token; its only role is to exist. -/
structure Policy
deriving DecidableEq, Repr

/-- `struct PolicyBuilder` (`src/sys/windows.rs` lines 56-59): holds
only a validity flag. -/
structure PolicyBuilder where
  valid : Bool
deriving DecidableEq, Repr

namespace PolicyBuilder

/-- `PolicyBuilder::new` (`src/sys/windows.rs` lines 62-64). -/
def new : PolicyBuilder := ⟨true⟩

/-- `PolicyBuilder::biometrics` (`src/sys/windows.rs` lines 66-72):
requesting biometrics with no strength marks the builder invalid. -/
def biometrics (self : PolicyBuilder) (b : Option BiometricStrength) : PolicyBuilder :=
  if b.isNone then ⟨false⟩ else self

/-- `PolicyBuilder::password` (`src/sys/windows.rs` lines 74-80):
disallowing password fallback marks the builder invalid. -/
def password (self : PolicyBuilder) (p : Bool) : PolicyBuilder :=
  if p then self else ⟨false⟩

/-- `PolicyBuilder::watch` (`src/sys/windows.rs` lines 82-84): ignored
by this backend. -/
def watch (self : PolicyBuilder) (_ : Bool) : PolicyBuilder :=
  self

/-- `PolicyBuilder::wrist_detection` (`src/sys/windows.rs` lines 86-88):
ignored by this backend. -/
def wrist_detection (self : PolicyBuilder) (_ : Bool) : PolicyBuilder :=
  self

/-- `PolicyBuilder::build` (`src/sys/windows.rs` lines 90-96). -/
def build (self : PolicyBuilder) : Option Policy :=
  if self.valid then some Policy.mk else none

end PolicyBuilder

/-- One factor-declaration call on a `PolicyBuilder`, used to quantify
over arbitrary call sequences. -/
inductive FactorCall
  | biometrics (strength : Option BiometricStrength)
  | password (allowed : Bool)
  | watch (flag : Bool)
  | wrist_detection (flag : Bool)
deriving DecidableEq, Repr

/-- Apply one factor-declaration call to a builder state, dispatching to
the corresponding `PolicyBuilder` method. -/
def PolicyBuilder.applyCall (self : PolicyBuilder) : FactorCall → PolicyBuilder
  | FactorCall.biometrics s => self.biometrics s
  | FactorCall.password p => self.password p
  | FactorCall.watch f => self.watch f
  | FactorCall.wrist_detection f => self.wrist_detection f

/-- Apply a sequence of factor-declaration calls, left to right. -/
def PolicyBuilder.applyCalls (self : PolicyBuilder) (cs : List FactorCall) : PolicyBuilder :=
  cs.foldl PolicyBuilder.applyCall self

/-- A factor-declaration call that keeps this backend's builder valid:
`biometrics` with some strength, `password true`, and any `watch` or
`wrist_detection` call. -/
def FactorCall.keepsValid : FactorCall → Bool
  | FactorCall.biometrics s => s.isSome
  | FactorCall.password p => p
  | FactorCall.watch _ => true
  | FactorCall.wrist_detection _ => true

/-- The outcomes the external world delivers to one authentication
call.  Each `IAsyncOperation` of the source is modelled by the outcome
of starting it (`..Start`, the `Result` returned by the WinRT call
itself, folding in the fallible `HSTRING` construction) together with
the outcome later delivered by `.get()` / `.await` (`..Result`).  The
`fallback` field is modelled from the spec: `mod fallback` is not under
`src/`; the spec describes it as an external collaborator
`fallback_authenticate(prompt_text) -> Result<(), Error>` invoked with
the same prompt text, already speaking the portable vocabulary. -/
structure Env where
  probeStart : Except WindowsCoreError Unit
  probeResult : Except WindowsCoreError UserConsentVerifierAvailability
  requestStart : Except WindowsCoreError Unit
  requestResult : Except WindowsCoreError UserConsentVerificationResult
  fallback : WindowsText → Except Error Unit

/-- An observable external action of one authentication call, recorded
in order: the availability query being started, a live verification
request being issued with a prompt text, or the fallback authenticator
being invoked with a prompt text. -/
inductive Event
  | probeStarted
  | requestIssued (text : WindowsText)
  | fallbackInvoked (text : WindowsText)
deriving DecidableEq, Repr

/-- `fn check_availability` (`src/sys/windows.rs` lines 99-101):
`UserConsentVerifier::CheckAvailabilityAsync().map_err(|e| e.into())`.
A start failure is converted through the `From` impl; on success the
pending operation (its eventual delivered outcome) is returned. -/
def check_availability (env : Env) :
    Except Error (Except WindowsCoreError UserConsentVerifierAvailability) :=
  match env.probeStart with
  | Except.error e => Except.error (Error.fromWindowsError e)
  | Except.ok _ => Except.ok env.probeResult

/-- `fn request_verification` (`src/sys/windows.rs` lines 104-137, both
feature variants): builds the caption from the prompt text and starts
the WinRT verification request; a start failure (including `HSTRING`
construction) is converted through the `From` impl; on success the
pending operation (its eventual delivered outcome) is returned. -/
def request_verification (env : Env) (text : WindowsText) :
    Except Error (Except WindowsCoreError UserConsentVerificationResult) :=
  match env.requestStart with
  | Except.error e => Except.error (Error.fromWindowsError e)
  | Except.ok _ => Except.ok env.requestResult

/-- `fn caption` (`src/sys/windows.rs` lines 139-148): the UTF-16 code
units of the message followed by an explicit null terminator. -/
def utf16Units (c : Char) : List Nat :=
  let v := c.toNat
  if v < 0x10000 then [v]
  else [0xD800 + (v - 0x10000) / 0x400, 0xDC00 + (v - 0x10000) % 0x400]

/-- `fn caption`, continued: concatenation over the message's
characters, then `caption.push(0)`. -/
def caption (message : String) : List Nat :=
  (message.data.map utf16Units).flatten ++ [0]

/-- `struct Context` (`src/sys/windows.rs` lines 15-21). -/
structure Context
deriving DecidableEq, Repr

/-- `Context::new` (`src/sys/windows.rs` lines 19-21). -/
def Context.new (_ : Unit) : Context := Context.mk

/-- `Context::authenticate` (`src/sys/windows.rs` lines 24-38), the
suspending mode: `check_availability()?.await == Ok(Available)` decides
the route; the live path is
`convert(request_verification(message.windows)?.await?)`, the other
path is `fallback::authenticate(message.windows)`.  Returns the
result paired with the trace of external actions. -/
def Context.authenticate (self : Context) (env : Env)
    (message : Text) (_ : Policy) : Except Error Unit × List Event :=
  match check_availability env with
  | Except.error e => (Except.error e, [Event.probeStarted])
  | Except.ok op =>
    if op = Except.ok UserConsentVerifierAvailability.Available then
      match request_verification env message.windows with
      | Except.error e =>
        (Except.error e, [Event.probeStarted, Event.requestIssued message.windows])
      | Except.ok op2 =>
        match op2 with
        | Except.error e =>
          (Except.error (Error.fromWindowsError e),
            [Event.probeStarted, Event.requestIssued message.windows])
        | Except.ok r =>
          (convert r, [Event.probeStarted, Event.requestIssued message.windows])
    else
      (env.fallback message.windows,
        [Event.probeStarted, Event.fallbackInvoked message.windows])

/-- `Context::blocking_authenticate` (`src/sys/windows.rs` lines
40-50), the blocking mode: `check_availability()?.get() ==
Ok(Available)` decides the route; the live path is
`convert(request_verification(message.windows)?.get()?)`, the other
path is `fallback::authenticate(message.windows)`.  Returns the result
paired with the trace of external actions. -/
def Context.blocking_authenticate (self : Context) (env : Env)
    (message : Text) (_ : Policy) : Except Error Unit × List Event :=
  match check_availability env with
  | Except.error e => (Except.error e, [Event.probeStarted])
  | Except.ok op =>
    if op = Except.ok UserConsentVerifierAvailability.Available then
      match request_verification env message.windows with
      | Except.error e =>
        (Except.error e, [Event.probeStarted, Event.requestIssued message.windows])
      | Except.ok op2 =>
        match op2 with
        | Except.error e =>
          (Except.error (Error.fromWindowsError e),
            [Event.probeStarted, Event.requestIssued message.windows])
        | Except.ok r =>
          (convert r, [Event.probeStarted, Event.requestIssued message.windows])
    else
      (env.fallback message.windows,
        [Event.probeStarted, Event.fallbackInvoked message.windows])

/-! Helper lemmas about the policy builder. -/

theorem PolicyBuilder.applyCalls_nil (b : PolicyBuilder) :
    b.applyCalls [] = b := rfl

theorem PolicyBuilder.applyCalls_cons (b : PolicyBuilder) (c : FactorCall)
    (cs : List FactorCall) :
    b.applyCalls (c :: cs) = (b.applyCall c).applyCalls cs := rfl

theorem PolicyBuilder.applyCall_valid_false (b : PolicyBuilder)
    (c : FactorCall) (h : b.valid = false) : (b.applyCall c).valid = false := by
  cases c <;>
    simp only [PolicyBuilder.applyCall, PolicyBuilder.biometrics,
      PolicyBuilder.password, PolicyBuilder.watch, PolicyBuilder.wrist_detection] <;>
    first
    | (split <;> simp_all)
    | simp_all

theorem PolicyBuilder.applyCalls_valid_false (b : PolicyBuilder)
    (cs : List FactorCall) (h : b.valid = false) :
    (b.applyCalls cs).valid = false := by
  induction cs generalizing b with
  | nil => simpa [PolicyBuilder.applyCalls_nil] using h
  | cons c rest ih =>
    rw [PolicyBuilder.applyCalls_cons]
    exact ih _ (PolicyBuilder.applyCall_valid_false b c h)

theorem PolicyBuilder.applyCalls_valid_false_of_mem (b : PolicyBuilder)
    (cs : List FactorCall) (c0 : FactorCall) (hmem : c0 ∈ cs)
    (hkill : ∀ x : PolicyBuilder, (x.applyCall c0).valid = false) :
    (b.applyCalls cs).valid = false := by
  induction cs generalizing b with
  | nil => cases hmem
  | cons c rest ih =>
    rw [PolicyBuilder.applyCalls_cons]
    rcases List.mem_cons.mp hmem with h | h
    · subst h
      exact PolicyBuilder.applyCalls_valid_false _ _ (hkill b)
    · exact ih _ h

theorem PolicyBuilder.applyCall_valid_true (b : PolicyBuilder)
    (c : FactorCall) (hb : b.valid = true) (hc : c.keepsValid = true) :
    (b.applyCall c).valid = true := by
  cases c <;>
    simp only [PolicyBuilder.applyCall, PolicyBuilder.biometrics,
      PolicyBuilder.password, PolicyBuilder.watch, PolicyBuilder.wrist_detection,
      FactorCall.keepsValid] at hc ⊢ <;>
    first
    | (split <;> simp_all [Option.isNone_iff_eq_none])
    | simp_all

theorem PolicyBuilder.applyCalls_valid_true (b : PolicyBuilder)
    (cs : List FactorCall) (hb : b.valid = true)
    (h : ∀ c ∈ cs, FactorCall.keepsValid c = true) :
    (b.applyCalls cs).valid = true := by
  induction cs generalizing b with
  | nil => simpa [PolicyBuilder.applyCalls_nil] using hb
  | cons c rest ih =>
    rw [PolicyBuilder.applyCalls_cons]
    exact ih _ (PolicyBuilder.applyCall_valid_true b c hb (h c (List.mem_cons_self c rest)))
      (fun d hd => h d (List.mem_cons_of_mem c hd))

/-! Claim theorems. -/

/-- C4: for every sequence of factor-declaration calls on a fresh
`PolicyBuilder` that includes a call `password(false)`, `build()`
returns no policy, regardless of any other factor calls before or after
it. -/
theorem spec_C4 (cs : List FactorCall)
    (h : FactorCall.password false ∈ cs) :
    (PolicyBuilder.new.applyCalls cs).build = none := by
  have hv : (PolicyBuilder.new.applyCalls cs).valid = false :=
    PolicyBuilder.applyCalls_valid_false_of_mem _ _ _ h
      (fun x => by simp [PolicyBuilder.applyCall, PolicyBuilder.password])
  simp [PolicyBuilder.build, hv]

/-- C4 witness: the concrete sequence
`biometrics(Some(strong)); password(false); watch(true)` contains
`password(false)` and builds no policy. -/
theorem spec_C4_witness :
    FactorCall.password false ∈
      [FactorCall.biometrics (some BiometricStrength.strong),
        FactorCall.password false, FactorCall.watch true] ∧
    (PolicyBuilder.new.applyCalls
      [FactorCall.biometrics (some BiometricStrength.strong),
        FactorCall.password false, FactorCall.watch true]).build = none :=
  ⟨by decide, spec_C4 _ (by decide)⟩

/-- C5: for every sequence of factor-declaration calls on a fresh
`PolicyBuilder` that includes a call `biometrics(None)`, `build()`
returns no policy. -/
theorem spec_C5 (cs : List FactorCall)
    (h : FactorCall.biometrics none ∈ cs) :
    (PolicyBuilder.new.applyCalls cs).build = none := by
  have hv : (PolicyBuilder.new.applyCalls cs).valid = false :=
    PolicyBuilder.applyCalls_valid_false_of_mem _ _ _ h
      (fun x => by simp [PolicyBuilder.applyCall, PolicyBuilder.biometrics])
  simp [PolicyBuilder.build, hv]

/-- C5 witness: the concrete sequence
`password(true); biometrics(None)` contains `biometrics(None)` and
builds no policy. -/
theorem spec_C5_witness :
    FactorCall.biometrics none ∈
      [FactorCall.password true, FactorCall.biometrics none] ∧
    (PolicyBuilder.new.applyCalls
      [FactorCall.password true, FactorCall.biometrics none]).build = none :=
  ⟨by decide, spec_C5 _ (by decide)⟩

/-- C6: for every sequence of factor-declaration calls on a fresh
`PolicyBuilder` in which every `biometrics` call passes some strength
and every `password` call passes `true`, `build()` returns a policy;
moreover `watch` and `wrist_detection` calls leave the builder state
unchanged whatever their argument, so their presence, absence or
arguments never change the outcome of `build()`. -/
theorem spec_C6 (cs : List FactorCall)
    (h : ∀ c ∈ cs, FactorCall.keepsValid c = true) :
    (PolicyBuilder.new.applyCalls cs).build = some Policy.mk ∧
    ∀ (b : PolicyBuilder) (x : Bool),
      b.applyCall (FactorCall.watch x) = b ∧
      b.applyCall (FactorCall.wrist_detection x) = b := by
  have hv : (PolicyBuilder.new.applyCalls cs).valid = true :=
    PolicyBuilder.applyCalls_valid_true _ _ rfl h
  exact ⟨by simp [PolicyBuilder.build, hv], fun b x => ⟨rfl, rfl⟩⟩

/-- C6 witness: the concrete sequence
`biometrics(Some(strong)); password(true); watch(false);
wrist_detection(true)` satisfies the hypothesis, builds a policy, and
`watch` is the identity on a concrete builder state. -/
theorem spec_C6_witness :
    (∀ c ∈ [FactorCall.biometrics (some BiometricStrength.strong),
        FactorCall.password true, FactorCall.watch false,
        FactorCall.wrist_detection true], FactorCall.keepsValid c = true) ∧
    (PolicyBuilder.new.applyCalls
      [FactorCall.biometrics (some BiometricStrength.strong),
        FactorCall.password true, FactorCall.watch false,
        FactorCall.wrist_detection true]).build = some Policy.mk ∧
    (PolicyBuilder.mk true).applyCall (FactorCall.watch false) = PolicyBuilder.mk true :=
  ⟨by decide, (spec_C6 _ (by decide)).1,
    ((spec_C6 [] (by decide)).2 (PolicyBuilder.mk true) false).1⟩

/-- C7: builder validity is monotonic-downward: every
factor-declaration call maps a state whose validity flag is `false` to a
state whose validity flag is `false`; no call restores validity. -/
theorem spec_C7 (b : PolicyBuilder) (c : FactorCall)
    (h : b.valid = false) : (b.applyCall c).valid = false :=
  PolicyBuilder.applyCall_valid_false b c h

/-- C7 witness: an invalid builder stays invalid through a concrete
`password(true)` call. -/
theorem spec_C7_witness :
    (PolicyBuilder.mk false).valid = false ∧
    ((PolicyBuilder.mk false).applyCall (FactorCall.password true)).valid = false :=
  ⟨rfl, spec_C7 (PolicyBuilder.mk false) (FactorCall.password true) rfl⟩

/-- C2: the result normalizer `convert` is a total function on platform
outcome codes: `Verified` maps to success; `DeviceNotPresent`,
`NotConfiguredForUser` and `DisabledByPolicy` each map to
`Unavailable`; `DeviceBusy` maps to `Busy`; `RetriesExhausted` maps to
`Exhausted`; `Canceled` maps to `UserCanceled`; and every other code
maps to `Unknown` — being a total Lean function it never panics or
leaves the call unresolved. -/
theorem spec_C2 :
    convert UserConsentVerificationResult.Verified = Except.ok () ∧
    convert UserConsentVerificationResult.DeviceNotPresent = Except.error Error.Unavailable ∧
    convert UserConsentVerificationResult.NotConfiguredForUser = Except.error Error.Unavailable ∧
    convert UserConsentVerificationResult.DisabledByPolicy = Except.error Error.Unavailable ∧
    convert UserConsentVerificationResult.DeviceBusy = Except.error Error.Busy ∧
    convert UserConsentVerificationResult.RetriesExhausted = Except.error Error.Exhausted ∧
    convert UserConsentVerificationResult.Canceled = Except.error Error.UserCanceled ∧
    ∀ r : UserConsentVerificationResult,
      r ≠ UserConsentVerificationResult.Verified →
      r ≠ UserConsentVerificationResult.DeviceNotPresent →
      r ≠ UserConsentVerificationResult.NotConfiguredForUser →
      r ≠ UserConsentVerificationResult.DisabledByPolicy →
      r ≠ UserConsentVerificationResult.DeviceBusy →
      r ≠ UserConsentVerificationResult.RetriesExhausted →
      r ≠ UserConsentVerificationResult.Canceled →
      convert r = Except.error Error.Unknown := by
  refine ⟨by decide, by decide, by decide, by decide, by decide, by decide, by decide, ?_⟩
  intro r h1 h2 h3 h4 h5 h6 h7
  simp only [convert]
  rw [if_neg h1, if_neg h2, if_neg h3, if_neg h4, if_neg h5, if_neg h6, if_neg h7]

/-- C2 witness: the unanticipated platform code 99 is outside the fixed
table and normalizes to `Unknown`. -/
theorem spec_C2_witness :
    convert ⟨99⟩ = Except.error Error.Unknown :=
  spec_C2.2.2.2.2.2.2.2 ⟨99⟩ (by decide) (by decide) (by decide) (by decide)
    (by decide) (by decide) (by decide)

/-- C9: the conversion from a raw platform transport error to the
portable `Error` type is total and constant: every platform transport
error, regardless of its code, is converted to `Unknown`, with no
further classification. -/
theorem spec_C9 :
    ∀ e : WindowsCoreError, Error.fromWindowsError e = Error.Unknown :=
  fun _ => rfl

/-- C3: for every environment (identical availability-probe outcome and
identical verification-request outcome), prompt text and policy, the
suspending and the blocking authentication operations take the same
path and return identical portable results (and identical traces). -/
theorem spec_C3 :
    ∀ (ctx : Context) (env : Env) (message : Text) (p : Policy),
      ctx.authenticate env message p = ctx.blocking_authenticate env message p :=
  fun _ _ _ _ => rfl

/-- C10: both authentication operations ignore the `Policy` argument
entirely: for every environment, prompt text and any two policies, each
operation returns identical results. -/
theorem spec_C10 :
    ∀ (ctx : Context) (env : Env) (message : Text) (p q : Policy),
      ctx.authenticate env message p = ctx.authenticate env message q ∧
      ctx.blocking_authenticate env message p = ctx.blocking_authenticate env message q :=
  fun _ _ _ _ _ => ⟨rfl, rfl⟩

/-- C1: in both modes, if the availability query starts successfully
but does not deliver `Available` (a not-available report or an error
while obtaining the result), then no live verification request is
issued, the fallback authenticator is invoked with the same prompt
text, and its result is returned unmodified (not passed through the
normalizer): the call returns exactly `env.fallback message.windows`
and the trace is probe followed by fallback only. -/
theorem spec_C1 (ctx : Context) (env : Env) (message : Text) (p : Policy)
    (h1 : env.probeStart = Except.ok ())
    (h2 : env.probeResult ≠ Except.ok UserConsentVerifierAvailability.Available) :
    ctx.authenticate env message p =
      (env.fallback message.windows,
        [Event.probeStarted, Event.fallbackInvoked message.windows]) ∧
    ctx.blocking_authenticate env message p =
      (env.fallback message.windows,
        [Event.probeStarted, Event.fallbackInvoked message.windows]) ∧
    (∀ t, Event.requestIssued t ∉ (ctx.authenticate env message p).2) ∧
    (∀ t, Event.requestIssued t ∉ (ctx.blocking_authenticate env message p).2) := by
  have hca : check_availability env = Except.ok env.probeResult := by
    simp only [check_availability, h1]
  have ha : ctx.authenticate env message p =
      (env.fallback message.windows,
        [Event.probeStarted, Event.fallbackInvoked message.windows]) := by
    simp only [Context.authenticate, hca, if_neg h2]
  have hb : ctx.blocking_authenticate env message p =
      (env.fallback message.windows,
        [Event.probeStarted, Event.fallbackInvoked message.windows]) := by
    simp only [Context.blocking_authenticate, hca, if_neg h2]
  refine ⟨ha, hb, ?_, ?_⟩ <;> intro t <;> simp [ha, hb]

/-- A concrete environment for the C1 witness: the probe starts, the
verifier reports `NotConfiguredForCurrentUser`, and the fallback
authenticator returns `Unavailable`. -/
def envC1 : Env where
  probeStart := Except.ok ()
  probeResult := Except.ok UserConsentVerifierAvailability.NotConfiguredForCurrentUser
  requestStart := Except.ok ()
  requestResult := Except.ok UserConsentVerificationResult.Verified
  fallback := fun _ => Except.error Error.Unavailable

/-- A concrete prompt text used by witnesses. -/
def msgC : Text := ⟨⟨"Confirm it is you"⟩⟩

/-- C1 witness: at the concrete environment `envC1` the blocking call
returns the fallback result `Unavailable` with the fallback trace. -/
theorem spec_C1_witness :
    envC1.probeStart = Except.ok () ∧
    envC1.probeResult ≠ Except.ok UserConsentVerifierAvailability.Available ∧
    Context.mk.blocking_authenticate envC1 msgC Policy.mk =
      (Except.error Error.Unavailable,
        [Event.probeStarted, Event.fallbackInvoked msgC.windows]) :=
  ⟨rfl, by decide,
    (spec_C1 Context.mk envC1 msgC Policy.mk rfl (by decide)).2.1⟩

/-- A concrete environment for the C8 counterexample: the availability
query starts successfully but errors while obtaining its result
(HRESULT 5), and the fallback authenticator succeeds. -/
def envC8 : Env where
  probeStart := Except.ok ()
  probeResult := Except.error ⟨5⟩
  requestStart := Except.ok ()
  requestResult := Except.ok UserConsentVerificationResult.Verified
  fallback := fun _ => Except.ok ()

/-- A concrete environment for the C8 amended witness: the availability
query errors at start (HRESULT 3). -/
def envC8a : Env where
  probeStart := Except.error ⟨3⟩
  probeResult := Except.ok UserConsentVerifierAvailability.Available
  requestStart := Except.ok ()
  requestResult := Except.ok UserConsentVerificationResult.Verified
  fallback := fun _ => Except.ok ()

/-- C8 counterexample: when the availability query errors while
obtaining its result (`envC8`), the claim says the call propagates an
error and invokes no fallback; in fact both modes return the fallback
result — here success, so no error is propagated — and the trace shows
the fallback authenticator was invoked. -/
theorem spec_C8_cex :
    envC8.probeResult = Except.error ⟨5⟩ ∧
    (Context.mk.authenticate envC8 msgC Policy.mk).1 = Except.ok () ∧
    (Context.mk.blocking_authenticate envC8 msgC Policy.mk).1 = Except.ok () ∧
    Event.fallbackInvoked msgC.windows ∈ (Context.mk.authenticate envC8 msgC Policy.mk).2 ∧
    Event.fallbackInvoked msgC.windows ∈ (Context.mk.blocking_authenticate envC8 msgC Policy.mk).2 :=
  ⟨rfl, rfl, rfl, by decide, by decide⟩

/-- C8 (amended): in both modes, if STARTING the availability query
errors, the call propagates an error (`Unknown`, through the transport
conversion) immediately, issuing no verification request and invoking
no fallback; but if the query starts and errors while OBTAINING its
result, the call treats the verifier as unavailable and returns the
fallback authenticator's result. -/
theorem spec_C8_amended (ctx : Context) (env : Env) (message : Text) (p : Policy) :
    (∀ e : WindowsCoreError, env.probeStart = Except.error e →
      ctx.authenticate env message p = (Except.error Error.Unknown, [Event.probeStarted]) ∧
      ctx.blocking_authenticate env message p =
        (Except.error Error.Unknown, [Event.probeStarted])) ∧
    (∀ e : WindowsCoreError, env.probeStart = Except.ok () →
      env.probeResult = Except.error e →
      ctx.authenticate env message p =
        (env.fallback message.windows,
          [Event.probeStarted, Event.fallbackInvoked message.windows]) ∧
      ctx.blocking_authenticate env message p =
        (env.fallback message.windows,
          [Event.probeStarted, Event.fallbackInvoked message.windows])) := by
  constructor
  · intro e he
    have hca : check_availability env = Except.error Error.Unknown := by
      simp only [check_availability, he, Error.fromWindowsError]
    constructor
    · simp only [Context.authenticate, hca]
    · simp only [Context.blocking_authenticate, hca]
  · intro e h1 h2
    have hca : check_availability env = Except.ok env.probeResult := by
      simp only [check_availability, h1]
    have hne : env.probeResult ≠ Except.ok UserConsentVerifierAvailability.Available := by
      rw [h2]
      intro hh
      exact Except.noConfusion hh
    constructor
    · simp only [Context.authenticate, hca, if_neg hne]
    · simp only [Context.blocking_authenticate, hca, if_neg hne]

/-- C8 amended witness: at `envC8a` (start error) the blocking call
propagates `Unknown` with no request and no fallback in the trace; at
`envC8` (result error) the blocking call returns the fallback result
with the fallback trace. -/
theorem spec_C8_amended_witness :
    Context.mk.blocking_authenticate envC8a msgC Policy.mk =
      (Except.error Error.Unknown, [Event.probeStarted]) ∧
    Context.mk.blocking_authenticate envC8 msgC Policy.mk =
      (Except.ok (), [Event.probeStarted, Event.fallbackInvoked msgC.windows]) :=
  ⟨((spec_C8_amended Context.mk envC8a msgC Policy.mk).1 ⟨3⟩ rfl).2,
    ((spec_C8_amended Context.mk envC8 msgC Policy.mk).2 ⟨5⟩ rfl rfl).2⟩

end RobiusAuth
